import Mathlib

/-!
Verification of the anti-poisoning DNS resolver of clash-rs
(src/clash/src/app/dns/resolver.rs), as a shallow embedding.

Rust `Result`/panics are modelled by `Outcome` (ok / err / crash), where
`crash` stands for a Rust panic (`unwrap` on `None`, `unreachable!`, `todo!`,
or the `select_ok` empty-iterator assertion).  Async racing is modelled by
giving every client's exchange a completion time and a result; `select_ok`
returns the earliest successful completion, or the last error when every
client fails, and the surrounding `tokio::select!` turns completions at or
past 10 seconds into the timeout error.  Each resolver operation returns a
`Run`: its outcome, the ids of the clients whose exchange was invoked, and
the resolver state after the call (the source takes `&self` everywhere and
never writes the cache, so the returned state is the input state).
-/

/-- Outcome of running a fallible piece of Rust code: `ok`/`err` mirror
`Result`, `crash` mirrors a panic. -/
inductive Outcome (α : Type) where
  | ok (a : α)
  | err (e : String)
  | crash (msg : String)
deriving DecidableEq

/-- Result of code that cannot return `Err` but may panic. -/
inductive PanicOr (α : Type) where
  | ok (a : α)
  | crash (msg : String)
deriving DecidableEq

/-- True exactly on the `err` constructor (a returned failure, not a panic). -/
def Outcome.isFailure {α : Type} : Outcome α → Bool
  | Outcome.err _ => true
  | _ => false

/-- An IP address: `trust_dns` `IpAddr`, payload left abstract as a `Nat`. -/
inductive IpAddr where
  | v4 (a : Nat)
  | v6 (a : Nat)
deriving DecidableEq

/-- DNS record types that matter to the engine (`rr::RecordType`). -/
inductive RecordType where
  | A
  | AAAA
  | other
deriving DecidableEq

/-- DNS classes (`rr::DNSClass`): Internet or anything else. -/
inductive DNSClass where
  | IN
  | other
deriving DecidableEq

/-- Resource-record data (`rr::RData`), restricted to what the engine reads. -/
inductive RData where
  | a (ip : Nat)
  | aaaa (ip : Nat)
  | other
deriving DecidableEq

/-- A question (`op::Query`): name, query type, query class. -/
structure Query where
  name : String
  qtype : RecordType
  qclass : DNSClass
deriving DecidableEq

/-- An answer record: its wire record type together with its data.  The source
reads `record_type()` and `data()` separately, so the embedding keeps them
separate (they may disagree on malformed records). -/
structure DnsRecord where
  rtype : RecordType
  rdata : Option RData
deriving DecidableEq

/-- A DNS message (`op::Message`): `query` is `message.query()` (the first
question, if any) and `answers` the answer section. -/
structure DnsMessage where
  query : Option Query
  answers : List DnsRecord
deriving DecidableEq

/-- Completion of one client's `exchange` call: time (seconds) at which it
completes, and its result. -/
structure ClientAnswer where
  time : Nat
  result : Except String DnsMessage

/-- A name-server client (capability interface of the spec): an id and its
`exchange(Message) -> Message | error` behaviour with a completion time. -/
structure DnsClient where
  id : Nat
  exchange : DnsMessage → ClientAnswer

/-- Boolean suffix test on strings, over the character-list model. -/
def strEndsWith (s post : String) : Bool :=
  decide (post.data.length ≤ s.data.length) &&
    decide (post.data = s.data.drop (s.data.length - post.data.length))

/-- Removes leading and trailing dots, as `name().to_ascii().trim_matches('.')`. -/
def trimDots (s : String) : String :=
  String.mk (((s.data.dropWhile (fun c => c = '.')).reverse.dropWhile
    (fun c => c = '.')).reverse)

/-- Modelled from the spec: domain-suffix matching used by the repository's
`trie::StringTrie` (src/clash/src/common/trie, not present under src/): a key
matches a domain when it equals the domain or is a dot-separated suffix. -/
def suffixMatches (key domain : String) : Bool :=
  decide (key = domain) || strEndsWith domain ((".") ++ key)

/-- Modelled from the spec: the repository's `trie::StringTrie` (not present
under src/), a longest-suffix-match structure mapping domain suffixes to data,
modelled as an association list. -/
abbrev StringTrie (α : Type) := List (String × α)

/-- Picks the entry with the longest key (first on ties). -/
def pickLongestKey {α : Type} : List (String × α) → Option (String × α)
  | [] => none
  | x :: xs =>
    match pickLongestKey xs with
    | none => some x
    | some y => if y.1.data.length ≤ x.1.data.length then some x else some y

/-- Modelled from the spec: `StringTrie::search` — the data of the longest
matching domain suffix, `none` when no suffix matches. -/
def trieSearch {α : Type} (t : StringTrie α) (domain : String) : Option α :=
  (pickLongestKey (t.filter (fun e => suffixMatches e.1 domain))).map
    (fun e => e.2)

/-- The response cache (`lru_time_cache::LruCache<String, Message>`), modelled
as an association list; only `peek` is ever called on it by the source. -/
abbrev Cache := List (String × DnsMessage)

/-- Cache read: `lru.peek(key)`. -/
def cachePeek (c : Cache) (k : String) : Option DnsMessage :=
  (c.find? (fun e => decide (e.1 = k))).map (fun e => e.2)

/-- Rendering of a record type inside the cache key. -/
def recordTypeStr : RecordType → String
  | RecordType.A => "A"
  | RecordType.AAAA => "AAAA"
  | RecordType.other => "OTHER"

/-- Rendering of a DNS class inside the cache key. -/
def dnsClassStr : DNSClass → String
  | DNSClass.IN => "IN"
  | DNSClass.other => "OTHER"

/-- Cache key of a question: its canonical string form (`q.to_string()`). -/
def queryKey (q : Query) : String :=
  q.name ++ (" ") ++ dnsClassStr q.qclass ++ (" ") ++ recordTypeStr q.qtype

/-- The resolver state (struct `Resolver`): configuration fields plus the
cache; fallback domain/IP filters are the spec's capability predicates. -/
structure Resolver where
  ipv6 : Bool
  hosts : Option (StringTrie IpAddr)
  main : List DnsClient
  fallback : Option (List DnsClient)
  fallback_domain_filters : Option (List (String → Bool))
  fallback_ip_filters : Option (List (IpAddr → Bool))
  lru_cache : Option Cache
  policy : Option (StringTrie (List DnsClient))

/-- Result of one resolver operation: its outcome, the ids of the clients it
invoked, and the resolver state after the call. -/
structure Run (α : Type) where
  res : Outcome α
  contacted : List Nat
  state : Resolver

/-- True on `Except.error`. -/
def isExErr (x : Except String DnsMessage) : Bool :=
  match x with
  | Except.error _ => true
  | Except.ok _ => false

/-- Successful completions (time, message) of a list of client answers. -/
def okCompletions : List ClientAnswer → List (Nat × DnsMessage)
  | [] => []
  | a :: rest =>
    match a.result with
    | Except.ok m => (a.time, m) :: okCompletions rest
    | Except.error _ => okCompletions rest

/-- Failed completions (time, error) of a list of client answers. -/
def errCompletions : List ClientAnswer → List (Nat × String)
  | [] => []
  | a :: rest =>
    match a.result with
    | Except.ok _ => errCompletions rest
    | Except.error e => (a.time, e) :: errCompletions rest

/-- Earliest completion (first on ties). -/
def pickMinTime {α : Type} : List (Nat × α) → Option (Nat × α)
  | [] => none
  | x :: xs =>
    match pickMinTime xs with
    | none => some x
    | some y => if x.1 ≤ y.1 then some x else some y

/-- Latest completion (first on ties). -/
def pickMaxTime {α : Type} : List (Nat × α) → Option (Nat × α)
  | [] => none
  | x :: xs =>
    match pickMaxTime xs with
    | none => some x
    | some y => if y.1 ≤ x.1 then some x else some y

/-- `Resolver::batch_exchange`: one exchange per client raced by
`futures::future::select_ok` under a 10-second `tokio::select!` timeout.
`select_ok` asserts a non-empty iterator (a panic on an empty client set),
returns the earliest successful completion, and when every future fails it
returns the error of the last future to complete; a completion at or past 10
seconds is beaten by the timeout branch. -/
def batch_exchange (clients : List DnsClient) (m : DnsMessage) :
    Outcome DnsMessage :=
  match clients with
  | [] => Outcome.crash ("iterator provided to select_ok was empty")
  | _ :: _ =>
    let outs := clients.map (fun c => c.exchange m)
    match pickMinTime (okCompletions outs) with
    | some tm =>
      if tm.1 < 10 then Outcome.ok tm.2 else Outcome.err ("DNS query timeout")
    | none =>
      match pickMaxTime (errCompletions outs) with
      | some te =>
        if te.1 < 10 then Outcome.err te.2 else Outcome.err ("DNS query timeout")
      | none => Outcome.err ("DNS query timeout")

/-- A `batch_exchange` call as a `Run`: every client of the set has one
exchange issued on it, and the resolver state is untouched. -/
def batchRun (r : Resolver) (clients : List DnsClient) (m : DnsMessage) :
    Run DnsMessage :=
  ⟨batch_exchange clients m, clients.map (fun c => c.id), r⟩

/-- `Resolver::is_ip_request`: Internet-class A or AAAA question. -/
def Resolver.is_ip_request (q : Query) : Bool :=
  decide (q.qclass = DNSClass.IN) &&
    (decide (q.qtype = RecordType.A) || decide (q.qtype = RecordType.AAAA))

/-- `Resolver::domain_name_of_message`: the question name with surrounding
dots trimmed. -/
def domain_name_of_message (m : DnsMessage) : Option String :=
  m.query.map (fun q => trimDots q.name)

/-- Recursion of `Resolver::ip_list_of_message` over the answer section:
keeps records whose record type is A or AAAA — regardless of the query's
type — and reads their data, hitting `unreachable!` on a kept record whose
data is missing or of another kind. -/
def ipListOfRecords : List DnsRecord → PanicOr (List IpAddr)
  | [] => PanicOr.ok []
  | r :: rest =>
    if r.rtype = RecordType.A ∨ r.rtype = RecordType.AAAA then
      match r.rdata with
      | some (RData.a x) =>
        (match ipListOfRecords rest with
         | PanicOr.ok l => PanicOr.ok (IpAddr.v4 x :: l)
         | PanicOr.crash c => PanicOr.crash c)
      | some (RData.aaaa x) =>
        (match ipListOfRecords rest with
         | PanicOr.ok l => PanicOr.ok (IpAddr.v6 x :: l)
         | PanicOr.crash c => PanicOr.crash c)
      | some RData.other => PanicOr.crash ("should be only A/AAAA")
      | none => PanicOr.crash ("should only be A/AAAA")
    else ipListOfRecords rest

/-- `Resolver::ip_list_of_message`. -/
def ip_list_of_message (m : DnsMessage) : PanicOr (List IpAddr) :=
  ipListOfRecords m.answers

/-- `Resolver::match_policy`: the policy trie is consulted only when the
fallback set, the fallback domain filters and the policy trie are all
configured (the source destructures all three before searching). -/
def Resolver.match_policy (r : Resolver) (m : DnsMessage) :
    Option (List DnsClient) :=
  match r.fallback, r.fallback_domain_filters, r.policy with
  | some _, some _, some policy =>
    (match domain_name_of_message m with
     | some domain => trieSearch policy domain
     | none => none)
  | _, _, _ => none

/-- `Resolver::should_only_query_fallback`: the fallback set and the domain
filters are configured and some filter accepts the queried domain. -/
def Resolver.should_only_query_fallback (r : Resolver) (m : DnsMessage) :
    Bool :=
  match r.fallback, r.fallback_domain_filters with
  | some _, some _ =>
    (match domain_name_of_message m with
     | some domain =>
       (match r.fallback_domain_filters with
        | some filters => filters.any (fun f => f domain)
        | none => false)
     | none => false)
  | _, _ => false

/-- `Resolver::should_ip_fallback`: some configured IP filter accepts the
address. -/
def Resolver.should_ip_fallback (r : Resolver) (ip : IpAddr) : Bool :=
  match r.fallback_ip_filters with
  | some filters => filters.any (fun f => f ip)
  | none => false

/-- The `fallback_query.await` tail of `ip_exchange`: the fallback race is
run (the future is only polled here) and its result returned; the main race's
clients have already been contacted. -/
def awaitFallback (mainRun : Run DnsMessage) (fb : List DnsClient)
    (m : DnsMessage) : Run DnsMessage :=
  ⟨batch_exchange fb m, mainRun.contacted ++ fb.map (fun c => c.id),
    mainRun.state⟩

/-- `Resolver::ip_exchange`, the anti-poisoning path.  Policy match (which
itself requires fallback and domain filters configured) races only the
matched set; a fallback-domain match races only the fallback set; with no
fallback set the main race's outcome is returned directly; otherwise the main
race runs first (the fallback future is lazy and only polled when awaited)
and its successful result is kept only when its first address exists and
passes the IP filters, the fallback race's result being returned otherwise. -/
def Resolver.ip_exchange (r : Resolver) (m : DnsMessage) : Run DnsMessage :=
  match Resolver.match_policy r m with
  | some matched => batchRun r matched m
  | none =>
    if Resolver.should_only_query_fallback r m then
      match r.fallback with
      | some fb => batchRun r fb m
      | none => ⟨Outcome.crash ("called Option::unwrap on a None value"), [], r⟩
    else
      match r.fallback with
      | none => batchRun r r.main m
      | some fb =>
        let mainRun := batchRun r r.main m
        match mainRun.res with
        | Outcome.ok main_result =>
          (match ip_list_of_message main_result with
           | PanicOr.ok ip_list =>
             if ip_list.isEmpty then awaitFallback mainRun fb m
             else if Resolver.should_ip_fallback r
                 (ip_list.headD (IpAddr.v4 0)) then
               awaitFallback mainRun fb m
             else ⟨Outcome.ok main_result, mainRun.contacted, r⟩
           | PanicOr.crash c => ⟨Outcome.crash c, mainRun.contacted, r⟩)
        | Outcome.err _ => awaitFallback mainRun fb m
        | Outcome.crash c => ⟨Outcome.crash c, mainRun.contacted, r⟩

/-- `Resolver::exchange_no_cache`: A/AAAA Internet queries go to the
anti-poisoning path; otherwise a policy match is raced, else the main set. -/
def Resolver.exchange_no_cache (r : Resolver) (m : DnsMessage) :
    Run DnsMessage :=
  match m.query with
  | none => ⟨Outcome.crash ("called Option::unwrap on a None value"), [], r⟩
  | some q =>
    if Resolver.is_ip_request q then Resolver.ip_exchange r m
    else
      match Resolver.match_policy r m with
      | some matched => batchRun r matched m
      | none => batchRun r r.main m

/-- `Resolver::exchange`: a message without a question fails; with a cache
configured, a hit on the question's canonical string returns the cached
message verbatim with no client invoked; a miss (or no cache) delegates to
`exchange_no_cache`.  No path writes the cache. -/
def Resolver.exchange (r : Resolver) (m : DnsMessage) : Run DnsMessage :=
  match m.query with
  | some q =>
    (match r.lru_cache with
     | some lru =>
       (match cachePeek lru (queryKey q) with
        | some cached => ⟨Outcome.ok cached, [], r⟩
        | none => Resolver.exchange_no_cache r m)
     | none => Resolver.exchange_no_cache r m)
  | none => ⟨Outcome.err ("invalid query"), [], r⟩

/-- Environment for stdlib collaborators of the resolver: `rr::Name::from_utf8`
(name validation/normalization), the `FromStr` literal parsers for the two IP
families, and the random choice made by `choose`. -/
structure Env where
  nameFromUtf8 : String → Option String
  parseV4 : String → Option Nat
  parseV6 : String → Option Nat
  rnd : Nat

/-- The single-question message built by `lookup_ip` (Internet class, the
given record type). -/
def mkQueryMsg (name : String) (rt : RecordType) : DnsMessage :=
  ⟨some ⟨name, rt, DNSClass.IN⟩, []⟩

/-- `SliceRandom::choose`: a uniformly random element, `none` on an empty
list; the randomness is supplied by the environment's `rnd`. -/
def chooseRandom {α : Type} (rnd : Nat) (l : List α) : Option α :=
  l.get? (rnd % l.length)

/-- `Resolver::lookup_ip`: builds the question (failing on an invalid name),
exchanges it, and turns a successful response with an empty A/AAAA list into
the "no record" error — a success always carries at least one address. -/
def Resolver.lookup_ip (env : Env) (r : Resolver) (host : String)
    (rt : RecordType) : Run (List IpAddr) :=
  match env.nameFromUtf8 host with
  | none => ⟨Outcome.err (("invalid domain: ") ++ host), [], r⟩
  | some name =>
    let x := Resolver.exchange r (mkQueryMsg name rt)
    match x.res with
    | Outcome.ok result =>
      (match ip_list_of_message result with
       | PanicOr.ok l =>
         if l.isEmpty then ⟨Outcome.err ("no record"), x.contacted, x.state⟩
         else ⟨Outcome.ok l, x.contacted, x.state⟩
       | PanicOr.crash c => ⟨Outcome.crash c, x.contacted, x.state⟩)
    | Outcome.err e => ⟨Outcome.err e, x.contacted, x.state⟩
    | Outcome.crash c => ⟨Outcome.crash c, x.contacted, x.state⟩

/-- `Resolver::resolve_v4`: host-table hit of the right family (a wrong
family hits `unreachable!`), then an IPv4 literal, then an A lookup whose
randomly chosen address must be IPv4 — `unreachable!` otherwise. -/
def Resolver.resolve_v4 (env : Env) (r : Resolver) (host : String) :
    Run (Option Nat) :=
  match r.hosts.bind (fun hs => trieSearch hs host) with
  | some (IpAddr.v4 a) => ⟨Outcome.ok (some a), [], r⟩
  | some (IpAddr.v6 _) => ⟨Outcome.crash ("invalid IP family"), [], r⟩
  | none =>
    match env.parseV4 host with
    | some a => ⟨Outcome.ok (some a), [], r⟩
    | none =>
      let x := Resolver.lookup_ip env r host RecordType.A
      match x.res with
      | Outcome.ok result =>
        (match chooseRandom env.rnd result with
         | some (IpAddr.v4 a) => ⟨Outcome.ok (some a), x.contacted, x.state⟩
         | some (IpAddr.v6 _) =>
           ⟨Outcome.crash ("invalid IP family"), x.contacted, x.state⟩
         | none =>
           ⟨Outcome.crash ("called Option::unwrap on a None value"),
             x.contacted, x.state⟩)
      | Outcome.err e => ⟨Outcome.err e, x.contacted, x.state⟩
      | Outcome.crash c => ⟨Outcome.crash c, x.contacted, x.state⟩

/-- `Resolver::resolve_v6`: fails with "ipv6 disabled" before any host-table,
literal or network step when IPv6 is off; otherwise mirrors `resolve_v4` for
the AAAA family. -/
def Resolver.resolve_v6 (env : Env) (r : Resolver) (host : String) :
    Run (Option Nat) :=
  if r.ipv6 then
    match r.hosts.bind (fun hs => trieSearch hs host) with
    | some (IpAddr.v6 a) => ⟨Outcome.ok (some a), [], r⟩
    | some (IpAddr.v4 _) => ⟨Outcome.crash ("invalid IP family"), [], r⟩
    | none =>
      match env.parseV6 host with
      | some a => ⟨Outcome.ok (some a), [], r⟩
      | none =>
        let x := Resolver.lookup_ip env r host RecordType.AAAA
        match x.res with
        | Outcome.ok result =>
          (match chooseRandom env.rnd result with
           | some (IpAddr.v6 a) => ⟨Outcome.ok (some a), x.contacted, x.state⟩
           | some (IpAddr.v4 _) =>
             ⟨Outcome.crash ("invalid IP family"), x.contacted, x.state⟩
           | none =>
             ⟨Outcome.crash ("called Option::unwrap on a None value"),
               x.contacted, x.state⟩)
        | Outcome.err e => ⟨Outcome.err e, x.contacted, x.state⟩
        | Outcome.crash c => ⟨Outcome.crash c, x.contacted, x.state⟩
  else ⟨Outcome.err ("ipv6 disabled"), [], r⟩

/-- Lifts a family-specific result into an `IpAddr` result, as the `map`s in
`ClashResolver::resolve`. -/
def mapRunNat (f : Nat → IpAddr) (x : Run (Option Nat)) : Run (Option IpAddr) :=
  ⟨(match x.res with
    | Outcome.ok v => Outcome.ok (v.map f)
    | Outcome.err e => Outcome.err e
    | Outcome.crash c => Outcome.crash c), x.contacted, x.state⟩

/-- `ClashResolver::resolve`: the configured-family delegate. -/
def Resolver.resolve (env : Env) (r : Resolver) (host : String) :
    Run (Option IpAddr) :=
  if r.ipv6 then mapRunNat IpAddr.v6 (Resolver.resolve_v6 env r host)
  else mapRunNat IpAddr.v4 (Resolver.resolve_v4 env r host)

/-- A server configuration entry (`NameServer`): transport kind, address,
optional bound interface. -/
structure NameServer where
  net : String
  address : String
  interface : Option String

/-- Modelled from the spec: `DnsClient::new` (src/clash/src/app/dns/dns_client.rs,
not present under src/) — per-client construction from host, port, transport
kind and interface, which may fail (`ClientConstructionFailure`). -/
def MkClient : Type :=
  String → Nat → String → Option String → Except String DnsClient

/-- Splits a character list on colons (Rust `str::split(':')` over the
address). -/
def splitOnColon : List Char → List (List Char)
  | [] => [[]]
  | c :: rest =>
    let r := splitOnColon rest
    if c = ':' then [] :: r
    else
      match r with
      | [] => [[c]]
      | h :: t => (c :: h) :: t

/-- Value of a decimal digit character. -/
def digitVal (c : Char) : Option Nat :=
  if '0' ≤ c ∧ c ≤ '9' then some (c.toNat - 48) else none

/-- Accumulating decimal parse of a digit list. -/
def parseDigits : List Char → Nat → Option Nat
  | [], acc => some acc
  | c :: rest, acc =>
    match digitVal c with
    | some d => parseDigits rest (acc * 10 + d)
    | none => none

/-- Decimal parse of a non-empty string (`u16::from_str` digits). -/
def parsePortNat (s : String) : Option Nat :=
  match s.data with
  | [] => none
  | _ => parseDigits s.data 0

/-- The address split of `make_clients`: the port is the last colon-separated
segment (`split(":").last().unwrap()`), the host is the address with the
`:port` suffix stripped — `strip_suffix(...).unwrap()` panics when the
address holds no colon — and the port must parse as a `u16`
(`parse::<u16>().unwrap()`). -/
def splitHostPort (address : String) : PanicOr (String × Nat) :=
  let parts := (splitOnColon address.data).map String.mk
  let port := parts.getLast!
  if strEndsWith address ((":") ++ port) then
    let host := String.mk
      (address.data.take (address.data.length - (port.data.length + 1)))
    match parsePortNat port with
    | some n =>
      if n < 65536 then PanicOr.ok (host, n)
      else PanicOr.crash ("invalid port")
    | none => PanicOr.crash ("invalid port")
  else PanicOr.crash ("called Option::unwrap on a None value")

/-- Prepends a constructed client to a construction result, keeping a crash. -/
def consPanicOr (c : DnsClient) :
    PanicOr (List DnsClient) → PanicOr (List DnsClient)
  | PanicOr.ok l => PanicOr.ok (c :: l)
  | PanicOr.crash msg => PanicOr.crash msg

/-- `Resolver::make_clients`: per server, the unimplemented transports
`https` and `dhcp` hit `todo!()` (an explicit construction-time panic); other
kinds split the address and construct a client — a failed construction is
logged and skipped while the loop continues with the remaining servers. -/
def make_clients (mk : MkClient) : List NameServer → PanicOr (List DnsClient)
  | [] => PanicOr.ok []
  | s :: rest =>
    if s.net = ("https") then PanicOr.crash ("not yet implemented")
    else if s.net = ("dhcp") then PanicOr.crash ("not yet implemented")
    else
      match splitHostPort s.address with
      | PanicOr.crash c => PanicOr.crash c
      | PanicOr.ok hp =>
        match mk hp.1 hp.2 s.net s.interface with
        | Except.ok c => consPanicOr c (make_clients mk rest)
        | Except.error _ => make_clients mk rest

/-- A resolution operation together with its inputs, for stating that a
sequence of operations leaves the resolver state untouched. -/
inductive ResolveOp where
  | exch (m : DnsMessage)
  | exchNoCache (m : DnsMessage)
  | ipExch (m : DnsMessage)
  | batch (clients : List DnsClient) (m : DnsMessage)
  | lookup (env : Env) (host : String) (rt : RecordType)
  | resV4 (env : Env) (host : String)
  | resV6 (env : Env) (host : String)
  | res (env : Env) (host : String)

/-- The resolver state after one operation. -/
def applyOp (r : Resolver) : ResolveOp → Resolver
  | ResolveOp.exch m => (Resolver.exchange r m).state
  | ResolveOp.exchNoCache m => (Resolver.exchange_no_cache r m).state
  | ResolveOp.ipExch m => (Resolver.ip_exchange r m).state
  | ResolveOp.batch clients m => (batchRun r clients m).state
  | ResolveOp.lookup env host rt => (Resolver.lookup_ip env r host rt).state
  | ResolveOp.resV4 env host => (Resolver.resolve_v4 env r host).state
  | ResolveOp.resV6 env host => (Resolver.resolve_v6 env r host).state
  | ResolveOp.res env host => (Resolver.resolve env r host).state

/-- The resolver state after a sequence of operations. -/
def runSeq (r : Resolver) : List ResolveOp → Resolver
  | [] => r
  | op :: ops => runSeq (applyOp r op) ops

/-! Concrete instances used to witness or refute the claims. -/

/-- Question of the anti-poisoning scenario (an A query). -/
def wQ1 : Query := ⟨("poisoned.example"), RecordType.A, DNSClass.IN⟩

/-- Message carrying only the question `wQ1`. -/
def wM1 : DnsMessage := ⟨some wQ1, []⟩

/-- Main-set answer: 1.2.3.4 (0x01020304). -/
def wMainMsg1 : DnsMessage :=
  ⟨some wQ1, [⟨RecordType.A, some (RData.a 16909060)⟩]⟩

/-- Fallback-set answer: 5.6.7.8 (0x05060708). -/
def wFbMsg1 : DnsMessage :=
  ⟨some wQ1, [⟨RecordType.A, some (RData.a 84281096)⟩]⟩

/-- Main client, answering 1.2.3.4 after one second. -/
def wMain1 : DnsClient := ⟨1, fun _ => ⟨1, Except.ok wMainMsg1⟩⟩

/-- Fallback client, answering 5.6.7.8 after one second. -/
def wFb1 : DnsClient := ⟨2, fun _ => ⟨1, Except.ok wFbMsg1⟩⟩

/-- IP filter standing for the CIDR 1.2.3.0/24: accepts 1.2.3.4. -/
def wIpFilter1 : IpAddr → Bool := fun ip => decide (ip = IpAddr.v4 16909060)

/-- Resolver of the anti-poisoning scenario: main and fallback sets, a
domain filter matching nothing, the 1.2.3.0/24 IP filter, no policy. -/
def wR1 : Resolver :=
  ⟨false, none, [wMain1], some [wFb1], some [fun _ => false],
    some [wIpFilter1], none, none⟩

/-- An A question whose upstream answer will carry an AAAA record. -/
def wQ2 : Query := ⟨("mixed.example"), RecordType.A, DNSClass.IN⟩

/-- Response to the A query `wQ2` carrying a single AAAA answer record. -/
def wMixed2 : DnsMessage := ⟨some wQ2, [⟨RecordType.AAAA, some (RData.aaaa 7)⟩]⟩

/-- Client answering the A query with the AAAA-only message. -/
def wC2 : DnsClient := ⟨1, fun _ => ⟨1, Except.ok wMixed2⟩⟩

/-- Plain resolver whose only main client returns the mixed-family answer. -/
def wR2 : Resolver := ⟨false, none, [wC2], none, none, none, some [], none⟩

/-- Environment whose literal parsers reject everything. -/
def wEnv2 : Env := ⟨fun s => some s, fun _ => none, fun _ => none, 0⟩

/-- A query under the policy suffix `corp.example`. -/
def cM3 : DnsMessage := mkQueryMsg ("internal.corp.example") RecordType.A

/-- Answer served by the policy-selected client. -/
def cPolMsg3 : DnsMessage :=
  ⟨(cM3).query, [⟨RecordType.A, some (RData.a 9)⟩]⟩

/-- The policy-selected client (id 9). -/
def cPol3 : DnsClient := ⟨9, fun _ => ⟨1, Except.ok cPolMsg3⟩⟩

/-- Answer served by the main set. -/
def cMainMsg3 : DnsMessage :=
  ⟨(cM3).query, [⟨RecordType.A, some (RData.a 1)⟩]⟩

/-- The main client (id 1). -/
def cMain3 : DnsClient := ⟨1, fun _ => ⟨1, Except.ok cMainMsg3⟩⟩

/-- A fallback client (id 5). -/
def cFb3 : DnsClient := ⟨5, fun _ => ⟨1, Except.ok cMainMsg3⟩⟩

/-- Resolver with a matching policy entry but no fallback set configured. -/
def cR3a : Resolver :=
  ⟨false, none, [cMain3], none, none, none, none,
    some [(("corp.example"), [cPol3])]⟩

/-- Resolver with a matching policy entry and a fallback set, but no
fallback domain filters configured. -/
def cR3b : Resolver :=
  ⟨false, none, [cMain3], some [cFb3], none, none, none,
    some [(("corp.example"), [cPol3])]⟩

/-- Resolver with a matching policy entry, a fallback set and domain
filters all configured. -/
def aR3 : Resolver :=
  ⟨false, none, [cMain3], some [cFb3], some [fun _ => false], none, none,
    some [(("corp.example"), [cPol3])]⟩

/-- Question repeated twice against a configured but never-written cache. -/
def wM4 : DnsMessage := mkQueryMsg ("cache.example") RecordType.A

/-- Upstream answer to `wM4`. -/
def wOk4 : DnsMessage :=
  ⟨(wM4).query, [⟨RecordType.A, some (RData.a 5)⟩]⟩

/-- The only main client of the cache scenario (id 1). -/
def wC4 : DnsClient := ⟨1, fun _ => ⟨1, Except.ok wOk4⟩⟩

/-- Freshly constructed resolver: configured, still-empty cache. -/
def wR4 : Resolver := ⟨false, none, [wC4], none, none, none, some [], none⟩

/-- A query whose domain is covered by a fallback domain filter. -/
def wM5 : DnsMessage := mkQueryMsg ("host.blocked.example") RecordType.A

/-- Fallback answer of the domain-filter scenario. -/
def wFbMsg5 : DnsMessage :=
  ⟨(wM5).query, [⟨RecordType.A, some (RData.a 3)⟩]⟩

/-- Main client of the domain-filter scenario (id 1). -/
def wMain5 : DnsClient := ⟨1, fun _ => ⟨1, Except.ok wFbMsg5⟩⟩

/-- Fallback client of the domain-filter scenario (id 7). -/
def wFb5 : DnsClient := ⟨7, fun _ => ⟨1, Except.ok wFbMsg5⟩⟩

/-- Domain filter matching `*.blocked.example`. -/
def wFilter5 : String → Bool := fun d => strEndsWith d ((".blocked.example"))

/-- Resolver with a fallback set and the `*.blocked.example` domain filter. -/
def wR5 : Resolver :=
  ⟨false, none, [wMain5], some [wFb5], some [wFilter5], none, none, none⟩

/-- Question of the all-fail race. -/
def wM6 : DnsMessage := mkQueryMsg ("fail.example") RecordType.A

/-- A client whose exchange fails after two seconds. -/
def wC6 : DnsClient := ⟨1, fun _ => ⟨2, Except.error ("boom")⟩⟩

/-- Environment with an IPv6 literal parser that accepts everything. -/
def wEnv7 : Env := ⟨fun s => some s, fun _ => none, fun _ => some 7, 0⟩

/-- Resolver with IPv6 disabled but a v6 host-table entry present. -/
def wR7 : Resolver :=
  ⟨false, some [(("h6.example"), IpAddr.v6 42)], [], none, none, none,
    some [], none⟩

/-- Question answered, via the cache, with zero answer records. -/
def wQ8 : Query := ⟨("empty.example"), RecordType.A, DNSClass.IN⟩

/-- Cached response with an empty answer section. -/
def wCached8 : DnsMessage := ⟨some wQ8, []⟩

/-- Resolver whose cache already holds the empty response for `wQ8`. -/
def wR8 : Resolver :=
  ⟨false, none, [], none, none, none, some [(queryKey wQ8, wCached8)], none⟩

/-- Identity-normalizing environment for the empty-response lookup. -/
def wEnv8 : Env := ⟨fun s => some s, fun _ => none, fun _ => none, 0⟩

/-- Client constructor that succeeds only for the `udp` transport. -/
def mk9 : MkClient := fun _ _ net _ =>
  if net = ("udp") then Except.ok ⟨1, fun _ => ⟨1, Except.error ("unused")⟩⟩
  else Except.error ("construction failed")

/-- A server whose client construction fails (`tcp` under `mk9`). -/
def wS9bad : NameServer := ⟨("tcp"), ("9.9.9.9:53"), none⟩

/-- A server whose client construction succeeds. -/
def wS9good : NameServer := ⟨("udp"), ("8.8.8.8:53"), none⟩

/-- A server with the unimplemented `https` transport. -/
def wS9https : NameServer := ⟨("https"), ("dns.google:443"), none⟩

theorem state_batchRun (r : Resolver) (clients : List DnsClient)
    (m : DnsMessage) : (batchRun r clients m).state = r := rfl

theorem state_awaitFallback (mainRun : Run DnsMessage) (fb : List DnsClient)
    (m : DnsMessage) : (awaitFallback mainRun fb m).state = mainRun.state := rfl

theorem state_ip_exchange (r : Resolver) (m : DnsMessage) :
    (Resolver.ip_exchange r m).state = r := by
  unfold Resolver.ip_exchange
  repeat' split
  all_goals try rfl
  all_goals dsimp only
  all_goals repeat' split
  all_goals rfl

theorem state_exchange_no_cache (r : Resolver) (m : DnsMessage) :
    (Resolver.exchange_no_cache r m).state = r := by
  unfold Resolver.exchange_no_cache
  repeat' split
  all_goals first
    | rfl
    | exact state_ip_exchange r m

theorem state_exchange (r : Resolver) (m : DnsMessage) :
    (Resolver.exchange r m).state = r := by
  unfold Resolver.exchange
  repeat' split
  all_goals first
    | rfl
    | exact state_exchange_no_cache r m

theorem state_lookup_ip (env : Env) (r : Resolver) (host : String)
    (rt : RecordType) : (Resolver.lookup_ip env r host rt).state = r := by
  unfold Resolver.lookup_ip
  repeat' split
  all_goals try rfl
  all_goals dsimp only
  all_goals repeat' split
  all_goals simp only [state_exchange]

theorem state_resolve_v4 (env : Env) (r : Resolver) (host : String) :
    (Resolver.resolve_v4 env r host).state = r := by
  unfold Resolver.resolve_v4
  repeat' split
  all_goals try rfl
  all_goals dsimp only
  all_goals repeat' split
  all_goals simp only [state_lookup_ip]

theorem state_resolve_v6 (env : Env) (r : Resolver) (host : String) :
    (Resolver.resolve_v6 env r host).state = r := by
  unfold Resolver.resolve_v6
  repeat' split
  all_goals try rfl
  all_goals dsimp only
  all_goals repeat' split
  all_goals simp only [state_lookup_ip]

theorem state_resolve (env : Env) (r : Resolver) (host : String) :
    (Resolver.resolve env r host).state = r := by
  unfold Resolver.resolve mapRunNat
  split
  · simp only [state_resolve_v6]
  · simp only [state_resolve_v4]

theorem state_applyOp (r : Resolver) (op : ResolveOp) : applyOp r op = r := by
  cases op with
  | exch m => exact state_exchange r m
  | exchNoCache m => exact state_exchange_no_cache r m
  | ipExch m => exact state_ip_exchange r m
  | batch clients m => exact state_batchRun r clients m
  | lookup env host rt => exact state_lookup_ip env r host rt
  | resV4 env host => exact state_resolve_v4 env r host
  | resV6 env host => exact state_resolve_v6 env r host
  | res env host => exact state_resolve env r host

theorem state_runSeq (r : Resolver) (ops : List ResolveOp) :
    runSeq r ops = r := by
  induction ops with
  | nil => rfl
  | cons op ops ih => rw [runSeq, state_applyOp, ih]

/-- Claim C10: no resolution operation (resolve, resolve_v4, resolve_v6,
exchange, exchange_no_cache, ip_exchange, batch_exchange) mutates any part of
the resolver's state — the configuration fields are only read, and no
operation ever inserts into or updates the cache, so after any sequence of
resolutions the state, and in particular the cache contents, are identical to
what they were before (hence to their value at construction). -/
theorem dns_C10 (env : Env) (r : Resolver) (m : DnsMessage) (host : String)
    (rt : RecordType) (clients : List DnsClient) (ops : List ResolveOp) :
    (Resolver.exchange r m).state = r ∧
    (Resolver.exchange_no_cache r m).state = r ∧
    (Resolver.ip_exchange r m).state = r ∧
    (batchRun r clients m).state = r ∧
    (Resolver.lookup_ip env r host rt).state = r ∧
    (Resolver.resolve_v4 env r host).state = r ∧
    (Resolver.resolve_v6 env r host).state = r ∧
    (Resolver.resolve env r host).state = r ∧
    runSeq r ops = r ∧
    (runSeq r ops).lru_cache = r.lru_cache :=
  ⟨state_exchange r m, state_exchange_no_cache r m, state_ip_exchange r m,
    state_batchRun r clients m, state_lookup_ip env r host rt,
    state_resolve_v4 env r host, state_resolve_v6 env r host,
    state_resolve env r host, state_runSeq r ops,
    by rw [state_runSeq]⟩

/-- Claim C1: on an A/AAAA exchange with a fallback set configured, no policy
match and no fallback-domain match, `ip_exchange` returns the main race's
result when the main race succeeds and its first returned address matches no
fallback IP filter; when the main race failed, or its answer list is empty,
or its first address matched an IP filter, it returns the fallback race's
result instead. -/
theorem dns_C1 (r : Resolver) (m : DnsMessage) (fb : List DnsClient)
    (q : Query) (hq : m.query = some q)
    (hip : Resolver.is_ip_request q = true)
    (hfb : r.fallback = some fb)
    (hpol : Resolver.match_policy r m = none)
    (hdom : Resolver.should_only_query_fallback r m = false) :
    (∀ mm l, batch_exchange r.main m = Outcome.ok mm →
      ip_list_of_message mm = PanicOr.ok l → l ≠ [] →
      Resolver.should_ip_fallback r (l.headD (IpAddr.v4 0)) = false →
      (Resolver.ip_exchange r m).res = Outcome.ok mm) ∧
    (∀ e, batch_exchange r.main m = Outcome.err e →
      (Resolver.ip_exchange r m).res = batch_exchange fb m) ∧
    (∀ mm l, batch_exchange r.main m = Outcome.ok mm →
      ip_list_of_message mm = PanicOr.ok l →
      (l = [] ∨
        Resolver.should_ip_fallback r (l.headD (IpAddr.v4 0)) = true) →
      (Resolver.ip_exchange r m).res = batch_exchange fb m) := by
  refine ⟨?_, ?_, ?_⟩
  · intro mm l hmain hl hne hfilter
    cases l with
    | nil => exact absurd rfl hne
    | cons a as =>
      have hfilter' : Resolver.should_ip_fallback r a = false := by
        simpa using hfilter
      simp [Resolver.ip_exchange, hpol, hdom, hfb, batchRun, awaitFallback,
        hmain, hl, hfilter']
  · intro e hmain
    simp [Resolver.ip_exchange, hpol, hdom, hfb, batchRun, awaitFallback,
      hmain]
  · intro mm l hmain hl hcase
    cases l with
    | nil =>
      simp [Resolver.ip_exchange, hpol, hdom, hfb, batchRun, awaitFallback,
        hmain, hl]
    | cons a as =>
      have hfilter' : Resolver.should_ip_fallback r a = true := by
        rcases hcase with h | h
        · exact absurd h (by simp)
        · simpa using h
      simp [Resolver.ip_exchange, hpol, hdom, hfb, batchRun, awaitFallback,
        hmain, hl, hfilter']

/-- Witness for C1, the spec's anti-poisoning scenario: the main set answers
1.2.3.4, which matches the configured IP filter, so the fallback race's
answer 5.6.7.8 is returned. -/
theorem dns_C1_witness :
    (Resolver.ip_exchange wR1 wM1).res = batch_exchange [wFb1] wM1 ∧
    batch_exchange [wFb1] wM1 = Outcome.ok wFbMsg1 := by
  have h := dns_C1 wR1 wM1 [wFb1] wQ1 rfl rfl rfl rfl rfl
  exact ⟨h.2.2 wMainMsg1 [IpAddr.v4 16909060] rfl rfl (Or.inr rfl), rfl⟩

/-- Claim C2 (code bug): `ip_list_of_message` keeps answer records of both
families regardless of the query's record type — an AAAA record in the
answer to an A query is surfaced as an IPv6 address — and `resolve_v4` then
hits `unreachable!` ("invalid IP family") when that address is the randomly
chosen one, instead of filtering it out. -/
theorem dns_C2_mixed_family_not_filtered :
    wQ2.qtype = RecordType.A ∧
    ip_list_of_message wMixed2 = PanicOr.ok [IpAddr.v6 7] ∧
    (Resolver.resolve_v4 wEnv2 wR2 ("mixed.example")).res =
      Outcome.crash ("invalid IP family") :=
  ⟨rfl, rfl, rfl⟩

/-- Claim C4 (code bug): with the cache configured (empty, as at
construction), a first successful exchange contacts the main client, leaves
the cache untouched (no insertion exists in the source), and the second
identical exchange contacts the main client again instead of answering from
the cache with no client invoked. -/
theorem dns_C4_cache_never_populated :
    (Resolver.exchange wR4 wM4).res = Outcome.ok wOk4 ∧
    (Resolver.exchange wR4 wM4).contacted = [1] ∧
    (Resolver.exchange wR4 wM4).state = wR4 ∧
    (Resolver.exchange (Resolver.exchange wR4 wM4).state wM4).contacted =
      [1] :=
  ⟨rfl, rfl, rfl, rfl⟩

/-- Claim C7: `resolve_v6` on a resolver with IPv6 disabled fails with the
"ipv6 disabled" error before consulting the host table, the literal parser
or the network. -/
theorem dns_C7 (env : Env) (r : Resolver) (host : String)
    (h : r.ipv6 = false) :
    Resolver.resolve_v6 env r host =
      ⟨Outcome.err ("ipv6 disabled"), [], r⟩ := by
  simp [Resolver.resolve_v6, h]

/-- Witness for C7: the host table holds a v6 entry for the host and the
literal parser would accept it, yet the call fails with "ipv6 disabled". -/
theorem dns_C7_witness :
    Resolver.resolve_v6 wEnv7 wR7 ("h6.example") =
      ⟨Outcome.err ("ipv6 disabled"), [], wR7⟩ :=
  dns_C7 wEnv7 wR7 ("h6.example") rfl

/-- Counterexample to C3 as stated: the policy trie matches the queried
domain (`corp.example` under `internal.corp.example`), yet with no fallback
set configured (`cR3a`), or with no fallback domain filters configured
(`cR3b`), `ip_exchange` races the main client (id 1) and never the
policy-selected client (id 9), because `match_policy` destructures the
fallback set and the domain filters before consulting the policy trie. -/
theorem dns_C3_cex :
    trieSearch [(("corp.example"), [cPol3])] ("internal.corp.example") =
      some [cPol3] ∧
    cR3a.policy = some [(("corp.example"), [cPol3])] ∧
    cR3a.fallback = none ∧
    (Resolver.ip_exchange cR3a cM3).contacted = [1] ∧
    cR3b.policy = some [(("corp.example"), [cPol3])] ∧
    cR3b.fallback_domain_filters = none ∧
    (Resolver.ip_exchange cR3b cM3).contacted = [1] ∧
    cPol3.id = 9 :=
  ⟨rfl, rfl, rfl, rfl, rfl, rfl, rfl, rfl⟩

/-- Claim C3 as amended: when a fallback client set and fallback domain
filters are also configured, an A/AAAA exchange on a resolver whose policy
trie has a suffix match for the queried domain races only the
policy-selected client set and returns its result. -/
theorem dns_C3_amended (r : Resolver) (m : DnsMessage) (fb : List DnsClient)
    (dfs : List (String → Bool)) (p : StringTrie (List DnsClient))
    (d : String) (ps : List DnsClient)
    (hfb : r.fallback = some fb)
    (hdf : r.fallback_domain_filters = some dfs)
    (hp : r.policy = some p)
    (hd : domain_name_of_message m = some d)
    (hs : trieSearch p d = some ps) :
    (Resolver.ip_exchange r m).res = batch_exchange ps m ∧
    (Resolver.ip_exchange r m).contacted = ps.map (fun c => c.id) := by
  have hmp : Resolver.match_policy r m = some ps := by
    simp [Resolver.match_policy, hfb, hdf, hp, hd, hs]
  constructor <;> simp [Resolver.ip_exchange, hmp, batchRun]

/-- Witness for the amended C3: with fallback set and domain filters
configured, the policy-selected client (id 9) alone is raced. -/
theorem dns_C3_amended_witness :
    (Resolver.ip_exchange aR3 cM3).res = batch_exchange [cPol3] cM3 ∧
    (Resolver.ip_exchange aR3 cM3).contacted = [9] := by
  have h := dns_C3_amended aR3 cM3 [cFb3] [fun _ => false]
    [(("corp.example"), [cPol3])] ("internal.corp.example") [cPol3]
    rfl rfl rfl rfl rfl
  exact ⟨h.1, h.2.trans rfl⟩

/-- Claim C5: with a fallback set configured, no policy match, and the
queried domain accepted by at least one configured fallback domain filter,
`ip_exchange` races exactly the fallback client set — no main-set client is
contacted — and returns its result. -/
theorem dns_C5 (r : Resolver) (m : DnsMessage) (fb : List DnsClient)
    (dfs : List (String → Bool)) (d : String)
    (hfb : r.fallback = some fb)
    (hpol : Resolver.match_policy r m = none)
    (hdf : r.fallback_domain_filters = some dfs)
    (hd : domain_name_of_message m = some d)
    (hmatch : dfs.any (fun f => f d) = true) :
    (Resolver.ip_exchange r m).res = batch_exchange fb m ∧
    (Resolver.ip_exchange r m).contacted = fb.map (fun c => c.id) := by
  have honly : Resolver.should_only_query_fallback r m = true := by
    simp [Resolver.should_only_query_fallback, hfb, hdf, hd, hmatch]
  constructor <;> simp [Resolver.ip_exchange, hpol, honly, hfb, batchRun]

/-- Witness for C5, the spec's fallback-domain scenario: a filter matching
`*.blocked.example` sends `host.blocked.example` to the fallback client
(id 7) only. -/
theorem dns_C5_witness :
    (Resolver.ip_exchange wR5 wM5).res = batch_exchange [wFb5] wM5 ∧
    (Resolver.ip_exchange wR5 wM5).contacted = [7] := by
  have h := dns_C5 wR5 wM5 [wFb5] [wFilter5] ("host.blocked.example")
    rfl rfl rfl rfl rfl
  exact ⟨h.1, h.2.trans rfl⟩

/-- Claim C8: a successful `lookup_ip` always returns a non-empty address
list, and a successful upstream exchange whose response carries zero A/AAAA
answer records is converted into the "no record" error, never into an empty
success. -/
theorem dns_C8 (env : Env) (r : Resolver) (host : String) (rt : RecordType) :
    (∀ l, (Resolver.lookup_ip env r host rt).res = Outcome.ok l → l ≠ []) ∧
    (∀ nm msg, env.nameFromUtf8 host = some nm →
      (Resolver.exchange r (mkQueryMsg nm rt)).res = Outcome.ok msg →
      ip_list_of_message msg = PanicOr.ok [] →
      (Resolver.lookup_ip env r host rt).res =
        Outcome.err ("no record")) := by
  constructor
  · intro l hl
    unfold Resolver.lookup_ip at hl
    cases hnm : env.nameFromUtf8 host with
    | none => rw [hnm] at hl; simp at hl
    | some nm =>
      rw [hnm] at hl
      dsimp only at hl
      cases hx : (Resolver.exchange r (mkQueryMsg nm rt)).res with
      | ok result =>
        rw [hx] at hl
        dsimp only at hl
        cases hil : ip_list_of_message result with
        | ok l2 =>
          rw [hil] at hl
          dsimp only at hl
          cases l2 with
          | nil => simp at hl
          | cons a as =>
            simp at hl
            subst hl
            simp
        | crash c => rw [hil] at hl; simp at hl
      | err e => rw [hx] at hl; simp at hl
      | crash c => rw [hx] at hl; simp at hl
  · intro nm msg hnm hx hl
    unfold Resolver.lookup_ip
    rw [hnm]
    dsimp only
    rw [hx]
    dsimp only
    rw [hl]
    simp

theorem pickMaxTime_eq_none {α : Type} (l : List (Nat × α))
    (h : pickMaxTime l = none) : l = [] := by
  cases l with
  | nil => rfl
  | cons x xs =>
    rw [pickMaxTime] at h
    cases hx : pickMaxTime xs with
    | none => rw [hx] at h; simp at h
    | some y =>
      rw [hx] at h
      dsimp only at h
      by_cases hc : y.1 ≤ x.1
      · rw [if_pos hc] at h; simp at h
      · rw [if_neg hc] at h; simp at h

theorem pickMaxTime_mem {α : Type} (l : List (Nat × α)) (p : Nat × α)
    (h : pickMaxTime l = some p) : p ∈ l := by
  induction l with
  | nil => simp [pickMaxTime] at h
  | cons x xs ih =>
    rw [pickMaxTime] at h
    cases hx : pickMaxTime xs with
    | none =>
      rw [hx] at h
      simp at h
      simp [h]
    | some y =>
      rw [hx] at h
      dsimp only at h
      by_cases hc : y.1 ≤ x.1
      · rw [if_pos hc] at h
        simp at h
        simp [h]
      · rw [if_neg hc] at h
        simp at h
        subst h
        exact List.mem_cons_of_mem x (ih hx)

theorem okCompletions_eq_nil (outs : List ClientAnswer)
    (h : ∀ a ∈ outs, isExErr a.result = true) : okCompletions outs = [] := by
  induction outs with
  | nil => rfl
  | cons a rest ih =>
    have ha := h a (List.mem_cons_self a rest)
    rw [okCompletions]
    cases hr : a.result with
    | ok mm =>
      rw [hr] at ha
      simp [isExErr] at ha
    | error e =>
      dsimp only
      exact ih (fun b hb => h b (List.mem_cons_of_mem a hb))

theorem errCompletions_mem (outs : List ClientAnswer) (p : Nat × String)
    (h : p ∈ errCompletions outs) :
    ∃ a, a ∈ outs ∧ a.result = Except.error p.2 := by
  induction outs with
  | nil => simp [errCompletions] at h
  | cons a rest ih =>
    rw [errCompletions] at h
    cases hr : a.result with
    | ok mm =>
      rw [hr] at h
      obtain ⟨b, hb, he⟩ := ih h
      exact ⟨b, List.mem_cons_of_mem a hb, he⟩
    | error e =>
      rw [hr] at h
      rcases List.mem_cons.mp h with h1 | h1
      · refine ⟨a, List.mem_cons_self a rest, ?_⟩
        rw [hr, h1]
      · obtain ⟨b, hb, he⟩ := ih h1
        exact ⟨b, List.mem_cons_of_mem a hb, he⟩

theorem errCompletions_cons_error (a : ClientAnswer)
    (rest : List ClientAnswer) (e : String) (ha : a.result = Except.error e) :
    errCompletions (a :: rest) = (a.time, e) :: errCompletions rest := by
  rw [errCompletions, ha]

/-- Counterexample to C6 as stated: on the empty client set — a set in which
no client's exchange succeeds — `batch_exchange` does not return a failure
at all: it panics with `select_ok`'s empty-iterator assertion. -/
theorem dns_C6_cex :
    batch_exchange ([] : List DnsClient) wM6 =
      Outcome.crash ("iterator provided to select_ok was empty") ∧
    Outcome.isFailure (batch_exchange ([] : List DnsClient) wM6) = false :=
  ⟨rfl, rfl⟩

/-- Claim C6 as amended: for every non-empty client set in which every
client's exchange fails, `batch_exchange` returns a failure — one of the
underlying client failures, or the timeout failure when the last completion
falls outside the 10-second window; the empty client set panics
(`select_ok` asserts non-emptiness) instead of returning a failure. -/
theorem dns_C6_amended (clients : List DnsClient) (m : DnsMessage)
    (hne : clients ≠ [])
    (hfail : clients.all (fun c => isExErr (c.exchange m).result) = true) :
    ∃ e, batch_exchange clients m = Outcome.err e ∧
      (e = ("DNS query timeout") ∨
        ∃ c, c ∈ clients ∧ (c.exchange m).result = Except.error e) := by
  have hall := List.all_eq_true.mp hfail
  cases clients with
  | nil => exact absurd rfl hne
  | cons c0 cs =>
    rw [batch_exchange]
    have hok : okCompletions ((c0 :: cs).map (fun c => c.exchange m)) = [] := by
      apply okCompletions_eq_nil
      intro a ha
      obtain ⟨c, hc, hca⟩ := List.mem_map.mp ha
      rw [← hca]
      exact hall c hc
    rw [hok]
    rw [pickMinTime]
    dsimp only
    cases hmax :
        pickMaxTime (errCompletions ((c0 :: cs).map (fun c => c.exchange m)))
        with
    | none =>
      exfalso
      have hnil := pickMaxTime_eq_none _ hmax
      have he0 : isExErr (c0.exchange m).result = true :=
        hall c0 (List.mem_cons_self c0 cs)
      cases hr : (c0.exchange m).result with
      | ok mm =>
        rw [hr] at he0
        simp [isExErr] at he0
      | error e =>
        rw [List.map_cons,
          errCompletions_cons_error (c0.exchange m) _ e hr] at hnil
        simp at hnil
    | some te =>
      dsimp only
      by_cases ht : te.1 < 10
      · rw [if_pos ht]
        refine ⟨te.2, rfl, Or.inr ?_⟩
        have hmem := pickMaxTime_mem _ _ hmax
        obtain ⟨a, haIn, hae⟩ := errCompletions_mem _ _ hmem
        obtain ⟨c, hc, hca⟩ := List.mem_map.mp haIn
        refine ⟨c, hc, ?_⟩
        rw [hca]
        exact hae
      · rw [if_neg ht]
        exact ⟨("DNS query timeout"), rfl, Or.inl rfl⟩

/-- Witness for the amended C6: a single always-failing client yields a
returned failure. -/
theorem dns_C6_witness :
    ∃ e, batch_exchange [wC6] wM6 = Outcome.err e ∧
      (e = ("DNS query timeout") ∨
        ∃ c, c ∈ [wC6] ∧ (c.exchange wM6).result = Except.error e) :=
  dns_C6_amended [wC6] wM6 (List.cons_ne_nil _ _) rfl

/-- Claim C9: `make_clients` handles each server independently — an
unsupported transport (`https` or `dhcp`) fails construction explicitly with
the `todo!` construction-time panic, while for supported transports a server
whose client construction fails is skipped (only logged) and construction
continues with the remaining servers, returning the clients that succeeded
(a successful construction is prepended to the rest's result). -/
theorem dns_C9 (mk : MkClient) (s : NameServer) (rest : List NameServer)
    (host : String) (port : Nat) :
    ((s.net = ("https") ∨ s.net = ("dhcp")) →
      make_clients mk (s :: rest) =
        PanicOr.crash ("not yet implemented")) ∧
    (s.net ≠ ("https") → s.net ≠ ("dhcp") →
      splitHostPort s.address = PanicOr.ok (host, port) →
      (∀ e, mk host port s.net s.interface = Except.error e →
        make_clients mk (s :: rest) = make_clients mk rest) ∧
      (∀ c, mk host port s.net s.interface = Except.ok c →
        make_clients mk (s :: rest) =
          consPanicOr c (make_clients mk rest))) := by
  constructor
  · intro h
    rw [make_clients]
    rcases h with h | h
    · rw [if_pos h]
    · by_cases h1 : s.net = ("https")
      · rw [if_pos h1]
      · rw [if_neg h1, if_pos h]
  · intro h1 h2 hsplit
    constructor
    · intro e he
      rw [make_clients, if_neg h1, if_neg h2, hsplit]
      dsimp only
      rw [he]
    · intro c hc
      rw [make_clients, if_neg h1, if_neg h2, hsplit]
      dsimp only
      rw [hc]

/-- Witness for C9: under `mk9` the failing `tcp` server is skipped while
construction continues, and an `https` server makes construction fail
explicitly. -/
theorem dns_C9_witness :
    make_clients mk9 [wS9bad, wS9good] = make_clients mk9 [wS9good] ∧
    make_clients mk9 [wS9https, wS9good] =
      PanicOr.crash ("not yet implemented") := by
  have h1 := ((dns_C9 mk9 wS9bad [wS9good] ("9.9.9.9") 53).2
    (by decide) (by decide) rfl).1 ("construction failed") rfl
  have h2 := (dns_C9 mk9 wS9https [wS9good] ("") 0).1 (Or.inl rfl)
  exact ⟨h1, h2⟩

/-- Witness for C8: a cached response with zero answer records makes the
lookup fail with "no record" rather than succeed with an empty list. -/
theorem dns_C8_witness :
    (Resolver.lookup_ip wEnv8 wR8 ("empty.example") RecordType.A).res =
      Outcome.err ("no record") :=
  (dns_C8 wEnv8 wR8 ("empty.example") RecordType.A).2 ("empty.example")
    wCached8 rfl rfl rfl
